import Mathlib

/-!
A shallow embedding of the evaluation-and-scaling core of the
`lxc_autoscaler` daemon, together with theorems settling the frozen
claims about its specification.

Python floats are modelled as rationals (`ℚ`): all arithmetic the code
performs on them is addition, subtraction, multiplication, division and
comparison, which behave identically on `ℚ` up to rounding.  Python ints
are modelled as `ℤ` (or `ℕ` where the source guarantees non-negativity,
e.g. counters and vmids).  Wall-clock reads (`time.time()`) are passed in
explicitly as a `now : ℚ` argument.  Dictionaries keyed by vmid are
modelled as functions `ℕ → Option _`, and the set of vmids with an
active operation as a `List ℕ`.
-/

/-! ### metrics/models.py -/

/-- Embeds `ResourceMetrics` (metrics/models.py): one telemetry sample for one
container. -/
structure ResourceMetrics where
  timestamp : ℚ
  cpu_usage_percent : ℚ
  memory_usage_percent : ℚ
  memory_used_mb : ℤ
  memory_total_mb : ℤ
  cpu_cores : ℤ
deriving DecidableEq, Repr

/-- Embeds `ContainerMetrics` (metrics/models.py): per-container runtime info plus
the rolling sample buffer (`historical_metrics`). -/
structure ContainerMetrics where
  vmid : ℕ
  node : String
  name : String
  status : String
  uptime : ℤ
  current_metrics : Option ResourceMetrics := none
  historical_metrics : List ResourceMetrics := []
deriving DecidableEq, Repr

/-- Embeds `ContainerMetrics.add_metrics`: append the sample, set it as current,
and keep only the last 100 entries (`self.historical_metrics[-100:]`). -/
def ContainerMetrics.add_metrics (cm : ContainerMetrics) (m : ResourceMetrics) :
    ContainerMetrics :=
  let hist := cm.historical_metrics ++ [m]
  let hist := if hist.length > 100 then hist.drop (hist.length - 100) else hist
  { cm with current_metrics := some m, historical_metrics := hist }

/-- Model of the Python negative-index slice `l[-n:]`; for `n = 0` it is the whole
list, otherwise the last `min n (length l)` elements. -/
def pySliceLast (l : List ResourceMetrics) (n : ℕ) : List ResourceMetrics :=
  if n = 0 then l else l.drop (l.length - n)

/-- Embeds `ContainerMetrics.get_average_metrics`: `None` when fewer than
`periods` samples are buffered, otherwise the mean of the cpu/memory
percentages over the last `periods` samples, the other fields copied from
the most recent sample.  (The `recent.getLast? = none` arm is unreachable
for `periods ≥ 1`; in Python that path would raise an IndexError.) -/
def ContainerMetrics.get_average_metrics (cm : ContainerMetrics) (periods : ℕ) :
    Option ResourceMetrics :=
  if cm.historical_metrics.length < periods then none
  else
    let recent := pySliceLast cm.historical_metrics periods
    let avg_cpu := (recent.map (·.cpu_usage_percent)).sum / (recent.length : ℚ)
    let avg_memory := (recent.map (·.memory_usage_percent)).sum / (recent.length : ℚ)
    match recent.getLast? with
    | none => none
    | some latest =>
        some { timestamp := latest.timestamp
               cpu_usage_percent := avg_cpu
               memory_usage_percent := avg_memory
               memory_used_mb := latest.memory_used_mb
               memory_total_mb := latest.memory_total_mb
               cpu_cores := latest.cpu_cores }

/-- Embeds `NodeMetrics` (metrics/models.py). -/
structure NodeMetrics where
  node_name : String
  cpu_usage_percent : ℚ
  memory_usage_percent : ℚ
  memory_used_gb : ℚ
  memory_total_gb : ℚ
  uptime : ℤ
  load_average : List ℚ
deriving DecidableEq, Repr

/-- The pair returned by `ClusterMetrics.get_resource_availability`. -/
structure ResourceAvailability where
  cpu_available_percent : ℚ
  memory_available_percent : ℚ
deriving DecidableEq, Repr

/-- Embeds `ClusterMetrics` (metrics/models.py). -/
structure ClusterMetrics where
  total_containers : ℕ
  running_containers : ℕ
  total_cpu_cores : ℕ
  total_memory_gb : ℚ
  avg_cpu_usage_percent : ℚ
  avg_memory_usage_percent : ℚ
  node_metrics : List NodeMetrics
  container_metrics : List ContainerMetrics
deriving DecidableEq, Repr

/-- Embeds `ClusterMetrics.get_resource_availability`: `{0, 0}` when no node
metrics were collected, otherwise `100 − avg usage`, clamped at 0. -/
def ClusterMetrics.get_resource_availability (c : ClusterMetrics) :
    ResourceAvailability :=
  if c.node_metrics.isEmpty then
    { cpu_available_percent := 0, memory_available_percent := 0 }
  else
    { cpu_available_percent := max 0 (100 - c.avg_cpu_usage_percent)
      memory_available_percent := max 0 (100 - c.avg_memory_usage_percent) }

/-! ### config/models.py (the parts the engine reads) -/

/-- Embeds `ScalingThresholds` (config/models.py). -/
structure ScalingThresholds where
  cpu_scale_up : ℚ := 80
  cpu_scale_down : ℚ := 30
  memory_scale_up : ℚ := 85
  memory_scale_down : ℚ := 40
deriving DecidableEq, Repr

/-- Embeds `ResourceLimits` (config/models.py). -/
structure ResourceLimits where
  min_cpu_cores : ℤ := 1
  max_cpu_cores : ℤ := 8
  min_memory_mb : ℤ := 512
  max_memory_mb : ℤ := 8192
  cpu_step : ℤ := 1
  memory_step_mb : ℤ := 256
deriving DecidableEq, Repr

/-- Embeds `ContainerConfig` (config/models.py); `thresholds`/`limits` are stored
already defaulted, as `__post_init__` guarantees. -/
structure ContainerConfig where
  vmid : ℕ
  enabled : Bool := true
  thresholds : ScalingThresholds := {}
  limits : ResourceLimits := {}
  cooldown_seconds : ℚ := 300
  evaluation_periods : ℕ := 3
deriving DecidableEq, Repr

/-- Embeds `SafetyConfig` (config/models.py). -/
structure SafetyConfig where
  max_concurrent_operations : ℕ := 3
  max_cpu_usage_threshold : ℚ := 95
  max_memory_usage_threshold : ℚ := 95
  emergency_scale_down_threshold : ℚ := 98
  resource_check_interval : ℤ := 30
  enable_host_protection : Bool := true
deriving DecidableEq, Repr

/-- Embeds `GlobalConfig` (config/models.py), restricted to the fields the
scaling engine reads (`dry_run`); logging/PID options are I/O concerns
outside the core. -/
structure GlobalConfig where
  monitoring_interval : ℤ := 60
  dry_run : Bool := false
deriving DecidableEq, Repr

/-- Embeds `AutoscalerConfig` (config/models.py), restricted to the fields the
scaling engine reads (the Proxmox connection section is transport). -/
structure AutoscalerConfig where
  global_config : GlobalConfig := {}
  safety : SafetyConfig := {}
  containers : List ContainerConfig := []
deriving DecidableEq, Repr

/-! ### scaling/models.py -/

/-- Embeds `ScalingAction` (scaling/models.py). -/
inductive ScalingAction where
  | scale_up_cpu
  | scale_down_cpu
  | scale_up_memory
  | scale_down_memory
  | no_action
deriving DecidableEq, Repr

/-- Embeds `ScalingReason` (scaling/models.py). -/
inductive ScalingReason where
  | cpu_high
  | cpu_low
  | memory_high
  | memory_low
  | resource_limit_reached
  | insufficient_data
  | cooldown_period
  | container_not_running
  | safety_threshold_exceeded
  | dry_run_mode
deriving DecidableEq, Repr

/-- Embeds `ScalingDecision` (scaling/models.py); the wall-clock `timestamp`
field set in `__post_init__` is not modelled (no claim reads it). -/
structure ScalingDecision where
  vmid : ℕ
  node : String
  action : ScalingAction
  reason : ScalingReason
  current_cpu_cores : ℤ
  current_memory_mb : ℤ
  target_cpu_cores : Option ℤ := none
  target_memory_mb : Option ℤ := none
  current_cpu_usage : Option ℚ := none
  current_memory_usage : Option ℚ := none
deriving DecidableEq, Repr

/-- Embeds `ScalingDecision.requires_scaling`: `action != NO_ACTION`. -/
def ScalingDecision.requires_scaling (d : ScalingDecision) : Bool :=
  d.action ≠ ScalingAction.no_action

/-- Embeds `ScalingOperation` (scaling/models.py). -/
structure ScalingOperation where
  decision : ScalingDecision
  started_at : ℚ
  completed_at : Option ℚ := none
  success : Option Bool := none
  error_message : Option String := none
deriving DecidableEq, Repr

/-- Embeds `ScalingOperation.is_completed`: `completed_at is not None`. -/
def ScalingOperation.is_completed (op : ScalingOperation) : Bool :=
  op.completed_at.isSome

/-- Embeds `ScalingOperation.is_successful`: `success is True`. -/
def ScalingOperation.is_successful (op : ScalingOperation) : Bool :=
  op.success = some true

/-- Embeds `ScalingHistory` (scaling/models.py); a fresh `ScalingHistory(vmid=v)`
is `{ vmid := v }` with the remaining fields at their defaults. -/
structure ScalingHistory where
  vmid : ℕ
  last_scaling_time : Option ℚ := none
  last_scaling_action : Option ScalingAction := none
  operation_count : ℕ := 0
  success_count : ℕ := 0
  failure_count : ℕ := 0
deriving DecidableEq, Repr

/-- Embeds `ScalingHistory.record_operation`: ignore operations that are not
completed; otherwise update `last_scaling_time`/`last_scaling_action`,
bump `operation_count` and exactly one of the success/failure counters. -/
def ScalingHistory.record_operation (h : ScalingHistory) (op : ScalingOperation) :
    ScalingHistory :=
  if op.is_completed then
    { h with
      last_scaling_time := op.completed_at
      last_scaling_action := some op.decision.action
      operation_count := h.operation_count + 1
      success_count := if op.is_successful then h.success_count + 1 else h.success_count
      failure_count := if op.is_successful then h.failure_count else h.failure_count + 1 }
  else h

/-- Embeds `ScalingHistory.is_in_cooldown`: never in cooldown without a recorded
scaling time; otherwise `now − last_scaling_time < cooldown_seconds`. -/
def ScalingHistory.is_in_cooldown (h : ScalingHistory) (now : ℚ)
    (cooldown_seconds : ℚ) : Bool :=
  match h.last_scaling_time with
  | none => false
  | some t => now - t < cooldown_seconds

/-! ### scaling/engine.py

The mutable engine state (`active_operations`, `scaling_history`) and
ambient inputs (`metrics_collector.get_container_metrics`, the wall
clock) are passed explicitly.

The source enum `ScalingReason` defines no member `NO_ACTION`
(scaling/models.py lines 20-31), yet `_make_scaling_decision` evaluates
`ScalingReason.NO_ACTION` in its fall-through branch (engine.py line 388).
In Python that attribute access raises `AttributeError` when the branch
executes; the embedding therefore returns `Except`, with that branch an
`error`. -/

/-- A Python exception escaping the embedded code. -/
inductive PyError where
  | attributeError (msg : String)
deriving DecidableEq, Repr

/-- Embeds `ScalingEngine._check_cluster_safety`: with host protection off the
gate is always open; otherwise closed when any node exceeds a stress
threshold or cluster availability drops below 10%. -/
def check_cluster_safety (config : AutoscalerConfig)
    (cluster_metrics : ClusterMetrics) : Bool :=
  if !config.safety.enable_host_protection then true
  else if cluster_metrics.node_metrics.any (fun n =>
      n.cpu_usage_percent > config.safety.max_cpu_usage_threshold ||
      n.memory_usage_percent > config.safety.max_memory_usage_threshold) then
    false
  else
    let availability := cluster_metrics.get_resource_availability
    if availability.cpu_available_percent < 10 then false
    else if availability.memory_available_percent < 10 then false
    else true

/-- Embeds `ScalingEngine._make_scaling_decision` (the `cluster_metrics`
parameter is passed in the source but unused by the body).  The final
"no scaling needed" branch raises `AttributeError`, see above. -/
def make_scaling_decision (container_config : ContainerConfig)
    (container_metrics : ContainerMetrics) (eval_metrics : ResourceMetrics)
    (_cluster_metrics : ClusterMetrics) : Except PyError ScalingDecision :=
  let vmid := container_config.vmid
  let thresholds := container_config.thresholds
  let limits := container_config.limits
  let current_cpu := eval_metrics.cpu_cores
  let current_memory := eval_metrics.memory_total_mb
  let cpu_usage := eval_metrics.cpu_usage_percent
  let memory_usage := eval_metrics.memory_usage_percent
  if cpu_usage ≥ thresholds.cpu_scale_up then
    let target_cpu := min (current_cpu + limits.cpu_step) limits.max_cpu_cores
    if target_cpu > current_cpu then
      Except.ok
        { vmid := vmid, node := container_metrics.node
          action := ScalingAction.scale_up_cpu, reason := ScalingReason.cpu_high
          current_cpu_cores := current_cpu, current_memory_mb := current_memory
          target_cpu_cores := some target_cpu
          current_cpu_usage := some cpu_usage, current_memory_usage := some memory_usage }
    else
      Except.ok
        { vmid := vmid, node := container_metrics.node
          action := ScalingAction.no_action, reason := ScalingReason.resource_limit_reached
          current_cpu_cores := current_cpu, current_memory_mb := current_memory
          current_cpu_usage := some cpu_usage, current_memory_usage := some memory_usage }
  else if memory_usage ≥ thresholds.memory_scale_up then
    let target_memory := min (current_memory + limits.memory_step_mb) limits.max_memory_mb
    if target_memory > current_memory then
      Except.ok
        { vmid := vmid, node := container_metrics.node
          action := ScalingAction.scale_up_memory, reason := ScalingReason.memory_high
          current_cpu_cores := current_cpu, current_memory_mb := current_memory
          target_memory_mb := some target_memory
          current_cpu_usage := some cpu_usage, current_memory_usage := some memory_usage }
    else
      Except.ok
        { vmid := vmid, node := container_metrics.node
          action := ScalingAction.no_action, reason := ScalingReason.resource_limit_reached
          current_cpu_cores := current_cpu, current_memory_mb := current_memory
          current_cpu_usage := some cpu_usage, current_memory_usage := some memory_usage }
  else if cpu_usage ≤ thresholds.cpu_scale_down then
    let target_cpu := max (current_cpu - limits.cpu_step) limits.min_cpu_cores
    if target_cpu < current_cpu then
      Except.ok
        { vmid := vmid, node := container_metrics.node
          action := ScalingAction.scale_down_cpu, reason := ScalingReason.cpu_low
          current_cpu_cores := current_cpu, current_memory_mb := current_memory
          target_cpu_cores := some target_cpu
          current_cpu_usage := some cpu_usage, current_memory_usage := some memory_usage }
    else
      Except.ok
        { vmid := vmid, node := container_metrics.node
          action := ScalingAction.no_action, reason := ScalingReason.resource_limit_reached
          current_cpu_cores := current_cpu, current_memory_mb := current_memory
          current_cpu_usage := some cpu_usage, current_memory_usage := some memory_usage }
  else if memory_usage ≤ thresholds.memory_scale_down then
    let target_memory := max (current_memory - limits.memory_step_mb) limits.min_memory_mb
    if target_memory < current_memory then
      Except.ok
        { vmid := vmid, node := container_metrics.node
          action := ScalingAction.scale_down_memory, reason := ScalingReason.memory_low
          current_cpu_cores := current_cpu, current_memory_mb := current_memory
          target_memory_mb := some target_memory
          current_cpu_usage := some cpu_usage, current_memory_usage := some memory_usage }
    else
      Except.ok
        { vmid := vmid, node := container_metrics.node
          action := ScalingAction.no_action, reason := ScalingReason.resource_limit_reached
          current_cpu_cores := current_cpu, current_memory_mb := current_memory
          current_cpu_usage := some cpu_usage, current_memory_usage := some memory_usage }
  else
    Except.error (PyError.attributeError "NO_ACTION")

/-- Embeds `container_metrics.current_metrics.cpu_cores if container_metrics.current_metrics else 0`. -/
def currentCoresOf (cm : ContainerMetrics) : ℤ :=
  match cm.current_metrics with
  | some m => m.cpu_cores
  | none => 0

/-- Embeds `container_metrics.current_metrics.memory_total_mb if container_metrics.current_metrics else 0`. -/
def currentMemoryOf (cm : ContainerMetrics) : ℤ :=
  match cm.current_metrics with
  | some m => m.memory_total_mb
  | none => 0

/-- Embeds `ScalingEngine._evaluate_container_scaling`: the five preflight
short-circuits in source order, then the threshold decision.
`container_metrics` is the value of
`metrics_collector.get_container_metrics(vmid)`; `active_operations` the
keys of the active-operation map of the engine; `scaling_history` its
history map; `now` the wall clock read inside `is_in_cooldown`. -/
def evaluate_container_scaling (container_config : ContainerConfig)
    (container_metrics : Option ContainerMetrics)
    (active_operations : List ℕ)
    (scaling_history : ℕ → Option ScalingHistory)
    (now : ℚ)
    (cluster_metrics : ClusterMetrics) : Except PyError ScalingDecision :=
  let vmid := container_config.vmid
  match container_metrics with
  | none =>
      Except.ok
        { vmid := vmid, node := "unknown"
          action := ScalingAction.no_action, reason := ScalingReason.insufficient_data
          current_cpu_cores := 0, current_memory_mb := 0 }
  | some cm =>
      if cm.status ≠ "running" then
        Except.ok
          { vmid := vmid, node := cm.node
            action := ScalingAction.no_action, reason := ScalingReason.container_not_running
            current_cpu_cores := 0, current_memory_mb := 0 }
      else if vmid ∈ active_operations then
        Except.ok
          { vmid := vmid, node := cm.node
            action := ScalingAction.no_action, reason := ScalingReason.cooldown_period
            current_cpu_cores := currentCoresOf cm, current_memory_mb := currentMemoryOf cm }
      else
        let history := (scaling_history vmid).getD { vmid := vmid }
        if history.is_in_cooldown now container_config.cooldown_seconds then
          Except.ok
            { vmid := vmid, node := cm.node
              action := ScalingAction.no_action, reason := ScalingReason.cooldown_period
              current_cpu_cores := currentCoresOf cm, current_memory_mb := currentMemoryOf cm }
        else
          match cm.get_average_metrics container_config.evaluation_periods with
          | none =>
              Except.ok
                { vmid := vmid, node := cm.node
                  action := ScalingAction.no_action, reason := ScalingReason.insufficient_data
                  current_cpu_cores := currentCoresOf cm, current_memory_mb := currentMemoryOf cm }
          | some eval_metrics =>
              make_scaling_decision container_config cm eval_metrics cluster_metrics

/-- Embeds `ScalingEngine._generate_scaling_decisions`: one decision per enabled
container, in configuration order; an exception from any single
evaluation aborts the loop and propagates. -/
def generate_scaling_decisions (config : AutoscalerConfig)
    (get_container_metrics : ℕ → Option ContainerMetrics)
    (active_operations : List ℕ)
    (scaling_history : ℕ → Option ScalingHistory)
    (now : ℚ)
    (cluster_metrics : ClusterMetrics) : Except PyError (List ScalingDecision) :=
  (config.containers.filter (·.enabled)).mapM (fun cc =>
    evaluate_container_scaling cc (get_container_metrics cc.vmid)
      active_operations scaling_history now cluster_metrics)

/-- Embeds `ScalingEngine.evaluate_and_scale`: empty when the safety gate is
closed; otherwise the generated decisions, dropping those that require
scaling whose execution failed.  `execution_ok` abstracts the I/O outcome
of `_execute_scaling_decision` for each decision. -/
def evaluate_and_scale (config : AutoscalerConfig)
    (get_container_metrics : ℕ → Option ContainerMetrics)
    (active_operations : List ℕ)
    (scaling_history : ℕ → Option ScalingHistory)
    (now : ℚ)
    (cluster_metrics : ClusterMetrics)
    (execution_ok : ScalingDecision → Bool) : Except PyError (List ScalingDecision) :=
  if !check_cluster_safety config cluster_metrics then Except.ok []
  else do
    let decisions ← generate_scaling_decisions config get_container_metrics
      active_operations scaling_history now cluster_metrics
    Except.ok (decisions.filter
      (fun d => if d.requires_scaling then execution_ok d else true))

/-- Trace of the contents of the executor map `active_operations` at each point
of a tick, as driven by `evaluate_and_scale`: decisions are executed
strictly sequentially (each `_execute_scaling_decision` call is awaited
to completion before the next begins).  For a decision that requires
scaling outside dry-run mode, `_execute_scaling_decision` registers the
vmid, performs the resize, and removes the vmid in its `finally` block;
decisions with `action = none`, and all decisions in dry-run mode, return
before registering.  Each list in the result is the key set of the map at one
instant, starting from and returning to the empty map. -/
def active_operations_trace (dry_run : Bool) :
    List ScalingDecision → List (List ℕ)
  | [] => [[]]
  | d :: ds =>
      if d.requires_scaling && !dry_run then
        [] :: [d.vmid] :: active_operations_trace dry_run ds
      else
        [] :: active_operations_trace dry_run ds

/-! ### Spec-side predicates -/

/-- States the ring-buffer invariant claimed by the spec: the buffered
samples are monotonically non-decreasing in timestamp. -/
def timestamps_monotone (l : List ResourceMetrics) : Prop :=
  List.Chain' (· ≤ ·) (l.map ResourceMetrics.timestamp)

/-- States the decision shape invariant claimed by the spec: a `none`
action carries no target, a CPU action carries exactly a cores target,
a memory action exactly a memory target, and any non-`none` action
carries exactly one of the two. -/
def decision_shape (d : ScalingDecision) : Prop :=
  (d.action = ScalingAction.no_action →
    d.target_cpu_cores = none ∧ d.target_memory_mb = none) ∧
  ((d.action = ScalingAction.scale_up_cpu ∨ d.action = ScalingAction.scale_down_cpu) →
    d.target_cpu_cores.isSome = true ∧ d.target_memory_mb = none) ∧
  ((d.action = ScalingAction.scale_up_memory ∨ d.action = ScalingAction.scale_down_memory) →
    d.target_cpu_cores = none ∧ d.target_memory_mb.isSome = true) ∧
  (d.action ≠ ScalingAction.no_action →
    (d.target_cpu_cores.isSome = true ∧ d.target_memory_mb = none) ∨
    (d.target_cpu_cores = none ∧ d.target_memory_mb.isSome = true))

/-! ### Concrete instances for counterexamples and witnesses -/

/-- Sample whose usage falls strictly between every scale-down and
scale-up default threshold: no threshold matches. -/
def sMid : ResourceMetrics :=
  { timestamp := 1000, cpu_usage_percent := 50, memory_usage_percent := 60
    memory_used_mb := 600, memory_total_mb := 1024, cpu_cores := 2 }

/-- Sample with high cpu and low memory usage: cpu-up and memory-down
both trigger against the default thresholds. -/
def sHot : ResourceMetrics :=
  { timestamp := 2000, cpu_usage_percent := 90, memory_usage_percent := 20
    memory_used_mb := 200, memory_total_mb := 1024, cpu_cores := 2 }

/-- Running container tracking three copies of `sMid`. -/
def cmMid : ContainerMetrics :=
  { vmid := 101, node := "pve1", name := "ct-101", status := "running", uptime := 100
    current_metrics := some sMid, historical_metrics := [sMid, sMid, sMid] }

/-- Running container tracking three copies of `sHot`. -/
def cmHot : ContainerMetrics :=
  { vmid := 101, node := "pve1", name := "ct-101", status := "running", uptime := 100
    current_metrics := some sHot, historical_metrics := [sHot, sHot, sHot] }

/-- Container configuration for vmid 101 with every default. -/
def ccDef : ContainerConfig := { vmid := 101 }

/-- Calm node, well under the default safety thresholds. -/
def nodeCalm : NodeMetrics :=
  { node_name := "pve1", cpu_usage_percent := 20, memory_usage_percent := 30
    memory_used_gb := 8, memory_total_gb := 32, uptime := 5000, load_average := [0, 0, 0] }

/-- Stressed node: cpu 97% exceeds the default 95% safety threshold. -/
def nodeHot : NodeMetrics :=
  { node_name := "pve2", cpu_usage_percent := 97, memory_usage_percent := 30
    memory_used_gb := 8, memory_total_gb := 32, uptime := 5000, load_average := [0, 0, 0] }

/-- Cluster with one calm node. -/
def clusterCalm : ClusterMetrics :=
  { total_containers := 1, running_containers := 1, total_cpu_cores := 3
    total_memory_gb := 32, avg_cpu_usage_percent := 20, avg_memory_usage_percent := 30
    node_metrics := [nodeCalm], container_metrics := [] }

/-- Cluster with one stressed node. -/
def clusterHot : ClusterMetrics :=
  { total_containers := 1, running_containers := 1, total_cpu_cores := 3
    total_memory_gb := 32, avg_cpu_usage_percent := 97, avg_memory_usage_percent := 30
    node_metrics := [nodeHot], container_metrics := [] }

/-- Cluster with no node metrics collected at all. -/
def clusterNoNodes : ClusterMetrics :=
  { total_containers := 0, running_containers := 0, total_cpu_cores := 0
    total_memory_gb := 0, avg_cpu_usage_percent := 0, avg_memory_usage_percent := 0
    node_metrics := [], container_metrics := [] }

/-- Autoscaler configuration with every default (host protection on,
three concurrent operations, dry-run off), monitoring container 101. -/
def configDef : AutoscalerConfig := { containers := [ccDef] }

/-- Collector map tracking no container. -/
def gcmNone : ℕ → Option ContainerMetrics := fun _ => none

/-- History map with no entry. -/
def histNone : ℕ → Option ScalingHistory := fun _ => none

/-- Execution oracle under which every resize succeeds. -/
def execAllOk : ScalingDecision → Bool := fun _ => true

/-- The decision the engine produces for `ccDef`/`cmHot`: scale cpu up
from 2 to 3 cores. -/
def dHot : ScalingDecision :=
  { vmid := 101, node := "pve1", action := ScalingAction.scale_up_cpu
    reason := ScalingReason.cpu_high, current_cpu_cores := 2, current_memory_mb := 1024
    target_cpu_cores := some 3, current_cpu_usage := some 90, current_memory_usage := some 20 }

/-- The decision the engine produces when no metrics are tracked for
container 101. -/
def dIns : ScalingDecision :=
  { vmid := 101, node := "unknown", action := ScalingAction.no_action
    reason := ScalingReason.insufficient_data
    current_cpu_cores := 0, current_memory_mb := 0 }

/-- A successfully completed scaling operation. -/
def opOk : ScalingOperation :=
  { decision := dHot, started_at := 100, completed_at := some 105, success := some true }

/-- A failed, completed scaling operation. -/
def opBad : ScalingOperation :=
  { decision := dHot, started_at := 200, completed_at := some 230
    success := some false, error_message := some "timeout" }

/-- Fresh container-metrics record with an empty sample buffer. -/
def cmFresh : ContainerMetrics :=
  { vmid := 200, node := "pve1", name := "ct-200", status := "running", uptime := 0 }

/-- Sample stamped at time 10. -/
def sT10 : ResourceMetrics :=
  { timestamp := 10, cpu_usage_percent := 1, memory_usage_percent := 1
    memory_used_mb := 1, memory_total_mb := 2, cpu_cores := 1 }

/-- Sample stamped at time 5, older than `sT10`. -/
def sT5 : ResourceMetrics :=
  { timestamp := 5, cpu_usage_percent := 1, memory_usage_percent := 1
    memory_used_mb := 1, memory_total_mb := 2, cpu_cores := 1 }

/-! ### Ring-buffer lemmas -/

/-- Truncating to the last 100 elements is dropping all but 100. -/
theorem pytrim_eq_drop (l : List ResourceMetrics) :
    (if l.length > 100 then l.drop (l.length - 100) else l) = l.drop (l.length - 100) := by
  split_ifs with h
  · rfl
  · rw [Nat.sub_eq_zero_of_le (by omega), List.drop_zero]

/-- Buffer contents after one append. -/
theorem add_metrics_historical (cm : ContainerMetrics) (m : ResourceMetrics) :
    (cm.add_metrics m).historical_metrics =
      (cm.historical_metrics ++ [m]).drop ((cm.historical_metrics ++ [m]).length - 100) := by
  simp only [ContainerMetrics.add_metrics]
  exact pytrim_eq_drop _

/-- Appending one element to a trailing window and re-trimming equals
trimming after appending to the full list. -/
theorem drop_window_append (P : List ResourceMetrics) (m : ResourceMetrics) :
    (P.drop (P.length - 100) ++ [m]).drop
        ((P.drop (P.length - 100) ++ [m]).length - 100) =
      (P ++ [m]).drop ((P ++ [m]).length - 100) := by
  rcases le_or_lt P.length 100 with h | h
  · rw [Nat.sub_eq_zero_of_le h, List.drop_zero]
  · have hs : (P.drop (P.length - 100)).length = 100 := by
      rw [List.length_drop]; omega
    have hlen1 : (P.drop (P.length - 100) ++ [m]).length = 101 := by
      simp [hs]
    rw [hlen1]
    have h1 : (101 : ℕ) - 100 = 1 := by norm_num
    rw [h1, List.drop_append_of_le_length (by omega), List.drop_drop]
    have hR : (P ++ [m]).length - 100 = (P.length - 100) + 1 := by
      simp only [List.length_append, List.length_cons, List.length_nil]; omega
    rw [hR, List.drop_append_of_le_length (by omega)]

/-- Folding appends over a buffer that is a trailing window keeps it the
trailing window of everything appended so far. -/
theorem foldl_add_metrics_window (ms : List ResourceMetrics) :
    ∀ (cm : ContainerMetrics) (P : List ResourceMetrics),
      cm.historical_metrics = P.drop (P.length - 100) →
      (ms.foldl ContainerMetrics.add_metrics cm).historical_metrics =
        (P ++ ms).drop ((P ++ ms).length - 100) := by
  induction ms with
  | nil =>
      intro cm P h
      simpa using h
  | cons m ms ih =>
      intro cm P h
      rw [List.foldl_cons]
      have h2 : (cm.add_metrics m).historical_metrics =
          (P ++ [m]).drop ((P ++ [m]).length - 100) := by
        rw [add_metrics_historical, h, drop_window_append]
      have h3 := ih (cm.add_metrics m) (P ++ [m]) h2
      simpa [List.append_assoc] using h3

/-- Buffer contents after any sequence of appends to an initially empty
buffer: the trailing window of the appended list. -/
theorem foldl_add_metrics_from_empty (cm : ContainerMetrics) (ms : List ResourceMetrics)
    (h : cm.historical_metrics = []) :
    (ms.foldl ContainerMetrics.add_metrics cm).historical_metrics =
      ms.drop (ms.length - 100) := by
  have h2 := foldl_add_metrics_window ms cm [] (by simpa using h)
  simpa using h2

/-- C9: the ring buffer is bounded by 100 samples; appending preserves
the bound, and after appending a whole list of samples to an initially
empty buffer the buffer is exactly the last `min total 100` samples in
append order (the trailing window, the oldest samples evicted first). -/
theorem c9_ring_buffer_bound (cm : ContainerMetrics) (ms : List ResourceMetrics)
    (h : cm.historical_metrics = []) :
    (∀ (cm2 : ContainerMetrics) (m : ResourceMetrics),
        cm2.historical_metrics.length ≤ 100 →
        (cm2.add_metrics m).historical_metrics.length ≤ 100) ∧
    (ms.foldl ContainerMetrics.add_metrics cm).historical_metrics =
      ms.drop (ms.length - 100) ∧
    (ms.foldl ContainerMetrics.add_metrics cm).historical_metrics.length =
      min ms.length 100 := by
  refine ⟨?_, foldl_add_metrics_from_empty cm ms h, ?_⟩
  · intro cm2 m hle
    rw [add_metrics_historical, List.length_drop]
    simp only [List.length_append, List.length_cons, List.length_nil]
    omega
  · rw [foldl_add_metrics_from_empty cm ms h, List.length_drop]
    omega

/-- C9 witness: appending a single sample to a fresh buffer leaves
exactly that sample. -/
theorem c9_witness :
    ([sT10].foldl ContainerMetrics.add_metrics cmFresh).historical_metrics = [sT10] := by
  have h := (c9_ring_buffer_bound cmFresh [sT10] rfl).2.1
  simpa using h

/-- C8 counterexample: `add_metrics` performs no timestamp check, so
appending a sample older than the previous one produces a buffer that is
not monotonically non-decreasing in timestamp. -/
theorem c8_counterexample :
    ¬ timestamps_monotone
        ((cmFresh.add_metrics sT10).add_metrics sT5).historical_metrics := by
  intro hmono
  have hbuf : ((cmFresh.add_metrics sT10).add_metrics sT5).historical_metrics =
      [sT10, sT5] := rfl
  rw [hbuf] at hmono
  unfold timestamps_monotone at hmono
  simp only [List.map_cons, List.map_nil, List.chain'_cons, List.chain'_singleton,
    and_true, sT10, sT5] at hmono
  norm_num at hmono

/-- C8 (amended): provided the collected samples are appended in
non-decreasing timestamp order, every buffer reachable from an empty one
is monotonically non-decreasing in timestamp. -/
theorem c8_monotone_of_ordered_appends (cm : ContainerMetrics)
    (ms : List ResourceMetrics) (h : cm.historical_metrics = [])
    (hmono : List.Chain' (fun a b => a.timestamp ≤ b.timestamp) ms) :
    timestamps_monotone (ms.foldl ContainerMetrics.add_metrics cm).historical_metrics := by
  rw [foldl_add_metrics_from_empty cm ms h]
  unfold timestamps_monotone
  rw [List.map_drop]
  exact ((List.chain'_map ResourceMetrics.timestamp).mpr hmono).drop _

/-- C8 witness: two samples appended in timestamp order yield a
monotone buffer. -/
theorem c8_witness :
    timestamps_monotone
      (([sT5, sT10].foldl ContainerMetrics.add_metrics cmFresh).historical_metrics) :=
  c8_monotone_of_ordered_appends cmFresh [sT5, sT10] rfl
    (by simp only [List.chain'_cons, List.chain'_singleton, and_true, sT5, sT10]; norm_num)

/-! ### History lemmas -/

/-- Recording one completed operation bumps `operation_count` and the
success/failure sum by one. -/
theorem record_operation_completed_counts (h : ScalingHistory) (op : ScalingOperation)
    (hc : op.is_completed = true) :
    (h.record_operation op).operation_count = h.operation_count + 1 ∧
    (h.record_operation op).success_count + (h.record_operation op).failure_count =
      h.success_count + h.failure_count + 1 := by
  unfold ScalingHistory.record_operation
  rw [if_pos hc]
  refine ⟨rfl, ?_⟩
  by_cases hs : op.is_successful = true <;> simp [hs] <;> omega

/-- Folding completed operations into any history adds their number to
`operation_count` and to the success/failure sum. -/
theorem foldl_record_operation_counts (ops : List ScalingOperation) :
    ∀ h0 : ScalingHistory, (∀ op ∈ ops, op.is_completed = true) →
      (ops.foldl ScalingHistory.record_operation h0).operation_count =
        h0.operation_count + ops.length ∧
      (ops.foldl ScalingHistory.record_operation h0).success_count +
          (ops.foldl ScalingHistory.record_operation h0).failure_count =
        h0.success_count + h0.failure_count + ops.length := by
  induction ops with
  | nil => intro h0 _; simp
  | cons op ops ih =>
      intro h0 hall
      rw [List.foldl_cons]
      have hc := hall op (by simp)
      have hrest : ∀ o ∈ ops, o.is_completed = true := fun o ho => hall o (by simp [ho])
      obtain ⟨g1, g2⟩ := ih (h0.record_operation op) hrest
      obtain ⟨k1, k2⟩ := record_operation_completed_counts h0 op hc
      refine ⟨?_, ?_⟩
  <;> simp only [List.length_cons]
      · omega
      · omega

/-- C6: recording mutates a history only for completed operations; a
completed operation updates `last_scaling_time` to its `completed_at`,
bumps `operation_count`, and bumps exactly one of the success/failure
counters according to the success flag; recording N completed operations
from the fresh history gives `operation_count = N` and
`success_count + failure_count = N`. -/
theorem c6_history_counters :
    (∀ (h : ScalingHistory) (op : ScalingOperation),
        op.is_completed = false → h.record_operation op = h) ∧
    (∀ (h : ScalingHistory) (op : ScalingOperation) (t : ℚ),
        op.completed_at = some t →
        (h.record_operation op).last_scaling_time = some t ∧
        (h.record_operation op).operation_count = h.operation_count + 1 ∧
        (op.is_successful = true →
          (h.record_operation op).success_count = h.success_count + 1 ∧
          (h.record_operation op).failure_count = h.failure_count) ∧
        (op.is_successful = false →
          (h.record_operation op).failure_count = h.failure_count + 1 ∧
          (h.record_operation op).success_count = h.success_count)) ∧
    (∀ (v : ℕ) (ops : List ScalingOperation),
        (∀ op ∈ ops, op.is_completed = true) →
        (ops.foldl ScalingHistory.record_operation { vmid := v }).operation_count =
          ops.length ∧
        (ops.foldl ScalingHistory.record_operation { vmid := v }).success_count +
            (ops.foldl ScalingHistory.record_operation { vmid := v }).failure_count =
          ops.length) := by
  refine ⟨?_, ?_, ?_⟩
  · intro h op hc
    unfold ScalingHistory.record_operation
    rw [if_neg (by simp [hc])]
  · intro h op t ht
    have hc : op.is_completed = true := by
      unfold ScalingOperation.is_completed
      rw [ht]
      rfl
    unfold ScalingHistory.record_operation
    rw [if_pos hc]
    refine ⟨by simp [ht], rfl, ?_, ?_⟩
    · intro hs; simp [hs]
    · intro hs; simp [hs]
  · intro v ops hall
    have h := foldl_record_operation_counts ops { vmid := v } hall
    simpa using h

/-- C6 witness: recording one successful and one failed completed
operation yields two operations with success and failure counts summing
to two. -/
theorem c6_witness :
    ([opOk, opBad].foldl ScalingHistory.record_operation
        { vmid := 101 }).operation_count = 2 ∧
    ([opOk, opBad].foldl ScalingHistory.record_operation
          { vmid := 101 }).success_count +
        ([opOk, opBad].foldl ScalingHistory.record_operation
          { vmid := 101 }).failure_count = 2 := by
  have h := c6_history_counters.2.2 101 [opOk, opBad] (by decide)
  simpa using h

/-! ### Concurrency trace -/

/-- C7: during the sequential execution of the decisions of a tick, the
`active_operations` map never holds more than one entry, hence never more
than `max_concurrent_operations` entries (the configuration validator
enforces at least 1). -/
theorem c7_concurrency_bound (config : AutoscalerConfig) (dry : Bool)
    (ds : List ScalingDecision)
    (hmax : 1 ≤ config.safety.max_concurrent_operations) :
    ∀ s ∈ active_operations_trace dry ds,
      s.length ≤ config.safety.max_concurrent_operations := by
  induction ds with
  | nil =>
      intro s hs
      simp only [active_operations_trace, List.mem_singleton] at hs
      subst hs
      simp
  | cons d ds ih =>
      intro s hs
      by_cases hc : (d.requires_scaling && !dry) = true
      · simp only [active_operations_trace, if_pos hc, List.mem_cons] at hs
        rcases hs with rfl | rfl | hs
        · simp
        · simpa using hmax
        · exact ih s hs
      · simp only [active_operations_trace, if_neg hc, List.mem_cons] at hs
        rcases hs with rfl | hs
        · simp
        · exact ih s hs

/-- C7 witness: executing the concrete scale-up decision registers a
single active operation, within the default bound of three. -/
theorem c7_witness :
    [(101 : ℕ)].length ≤ configDef.safety.max_concurrent_operations :=
  c7_concurrency_bound configDef false [dHot] (by decide) [101] (by decide)

/-! ### Safety gate -/

/-- C2: with host protection enabled the gate is closed exactly when some
node exceeds a stress threshold or cluster availability is below 10
percent; a closed gate makes `evaluate_and_scale` return the empty
decision list for the whole tick; with host protection disabled the gate
is always open. -/
theorem c2_cluster_safety_gate (config : AutoscalerConfig) (cluster : ClusterMetrics)
    (gcm : ℕ → Option ContainerMetrics) (aops : List ℕ)
    (hist : ℕ → Option ScalingHistory) (now : ℚ) (exec : ScalingDecision → Bool) :
    (config.safety.enable_host_protection = true →
      (check_cluster_safety config cluster = false ↔
        (∃ n ∈ cluster.node_metrics,
            config.safety.max_cpu_usage_threshold < n.cpu_usage_percent ∨
            config.safety.max_memory_usage_threshold < n.memory_usage_percent) ∨
          cluster.get_resource_availability.cpu_available_percent < 10 ∨
          cluster.get_resource_availability.memory_available_percent < 10)) ∧
    (check_cluster_safety config cluster = false →
      evaluate_and_scale config gcm aops hist now cluster exec = Except.ok []) ∧
    (config.safety.enable_host_protection = false →
      check_cluster_safety config cluster = true) := by
  refine ⟨?_, ?_, ?_⟩
  · intro hp
    unfold check_cluster_safety
    rw [hp]
    simp only [Bool.not_true, Bool.false_eq_true, if_false]
    split_ifs with h1 h2 h3
    · simp only [true_iff]
      left
      obtain ⟨n, hn, hpred⟩ := List.any_eq_true.mp h1
      exact ⟨n, hn, by simpa using hpred⟩
    · simp only [true_iff]
      right; left; exact h2
    · simp only [true_iff]
      right; right; exact h3
    · simp only [Bool.true_eq_false, false_iff]
      intro hrhs
      rcases hrhs with ⟨n, hn, hor⟩ | h | h
      · exact absurd (List.any_eq_true.mpr ⟨n, hn, by simpa using hor⟩) h1
      · exact h2 h
      · exact h3 h
  · intro hc
    unfold evaluate_and_scale
    rw [hc]
    rfl
  · intro hp
    unfold check_cluster_safety
    rw [hp]
    rfl

/-- C2 witness: the stressed cluster closes the gate under the default
configuration and the tick returns no decisions. -/
theorem c2_witness :
    evaluate_and_scale configDef gcmNone [] histNone 0 clusterHot execAllOk =
      Except.ok [] :=
  (c2_cluster_safety_gate configDef clusterHot gcmNone [] histNone 0 execAllOk).2.1
    (by decide)

/-- C10: with no node metrics collected, resource availability computes
to 0/0, so an enabled safety gate closes (although no node exceeds a
stress threshold) and the tick yields zero decisions; availability is
clamped to be never negative. -/
theorem c10_empty_nodes_closes_gate (config : AutoscalerConfig)
    (cluster : ClusterMetrics) (gcm : ℕ → Option ContainerMetrics) (aops : List ℕ)
    (hist : ℕ → Option ScalingHistory) (now : ℚ) (exec : ScalingDecision → Bool) :
    (cluster.node_metrics = [] →
      cluster.get_resource_availability =
        { cpu_available_percent := 0, memory_available_percent := 0 } ∧
      (∀ n ∈ cluster.node_metrics,
        ¬ config.safety.max_cpu_usage_threshold < n.cpu_usage_percent ∧
        ¬ config.safety.max_memory_usage_threshold < n.memory_usage_percent) ∧
      (config.safety.enable_host_protection = true →
        check_cluster_safety config cluster = false ∧
        evaluate_and_scale config gcm aops hist now cluster exec = Except.ok [])) ∧
    (∀ c : ClusterMetrics,
      0 ≤ c.get_resource_availability.cpu_available_percent ∧
      0 ≤ c.get_resource_availability.memory_available_percent) := by
  refine ⟨?_, ?_⟩
  · intro hempty
    have havail : cluster.get_resource_availability =
        { cpu_available_percent := 0, memory_available_percent := 0 } := by
      unfold ClusterMetrics.get_resource_availability
      rw [hempty]
      rfl
    refine ⟨havail, by simp [hempty], ?_⟩
    intro hp
    have hgate : check_cluster_safety config cluster = false := by
      unfold check_cluster_safety
      rw [hp, hempty, havail]
      norm_num
    refine ⟨hgate, ?_⟩
    unfold evaluate_and_scale
    rw [hgate]
    rfl
  · intro c
    unfold ClusterMetrics.get_resource_availability
    split_ifs
    · exact ⟨le_refl 0, le_refl 0⟩
    · exact ⟨le_max_left 0 _, le_max_left 0 _⟩

/-- C10 witness: the concrete node-less cluster yields 0/0 availability
and an empty tick under the default configuration. -/
theorem c10_witness :
    clusterNoNodes.get_resource_availability =
      { cpu_available_percent := 0, memory_available_percent := 0 } ∧
    evaluate_and_scale configDef gcmNone [] histNone 0 clusterNoNodes execAllOk =
      Except.ok [] := by
  have h := (c10_empty_nodes_closes_gate configDef clusterNoNodes gcmNone [] histNone 0
    execAllOk).1 rfl
  exact ⟨h.1, (h.2.2 rfl).2⟩

/-! ### Average view lemmas -/

/-- Too few samples make the average view return `none`. -/
theorem get_average_metrics_none (cm : ContainerMetrics) (N : ℕ)
    (h : cm.historical_metrics.length < N) : cm.get_average_metrics N = none := by
  unfold ContainerMetrics.get_average_metrics
  rw [if_pos h]

/-- With at least `N ≥ 1` samples, the average view returns a sample
averaging the last `N` cpu/memory percentages and copying every other
field from the most recent buffered sample. -/
theorem get_average_metrics_spec (cm : ContainerMetrics) (N : ℕ) (h1 : 1 ≤ N)
    (h2 : N ≤ cm.historical_metrics.length) :
    ∃ em latest,
      cm.get_average_metrics N = some em ∧
      (cm.historical_metrics.drop (cm.historical_metrics.length - N)).getLast? =
        some latest ∧
      em.cpu_usage_percent =
        ((cm.historical_metrics.drop (cm.historical_metrics.length - N)).map
          (fun m => m.cpu_usage_percent)).sum / (N : ℚ) ∧
      em.memory_usage_percent =
        ((cm.historical_metrics.drop (cm.historical_metrics.length - N)).map
          (fun m => m.memory_usage_percent)).sum / (N : ℚ) ∧
      em.cpu_cores = latest.cpu_cores ∧
      em.memory_used_mb = latest.memory_used_mb ∧
      em.memory_total_mb = latest.memory_total_mb ∧
      em.timestamp = latest.timestamp := by
  have hlen : (cm.historical_metrics.drop (cm.historical_metrics.length - N)).length
      = N := by
    rw [List.length_drop]; omega
  have hne : cm.historical_metrics.drop (cm.historical_metrics.length - N) ≠ [] := by
    intro hteq
    rw [hteq] at hlen
    simp at hlen
    omega
  obtain ⟨latest, hlast⟩ : ∃ x,
      (cm.historical_metrics.drop (cm.historical_metrics.length - N)).getLast?
        = some x := by
    rcases hgl : (cm.historical_metrics.drop
        (cm.historical_metrics.length - N)).getLast? with _ | x
    · exact absurd (List.getLast?_eq_none_iff.mp hgl) hne
    · exact ⟨x, rfl⟩
  have hcast : ((cm.historical_metrics.drop
      (cm.historical_metrics.length - N)).length : ℚ) = (N : ℚ) := by
    rw [hlen]
  refine ⟨⟨latest.timestamp,
           ((cm.historical_metrics.drop (cm.historical_metrics.length - N)).map
             (fun m => m.cpu_usage_percent)).sum / (N : ℚ),
           ((cm.historical_metrics.drop (cm.historical_metrics.length - N)).map
             (fun m => m.memory_usage_percent)).sum / (N : ℚ),
           latest.memory_used_mb, latest.memory_total_mb, latest.cpu_cores⟩,
         latest, ?_, hlast, rfl, rfl, rfl, rfl, rfl, rfl⟩
  simp only [ContainerMetrics.get_average_metrics, pySliceLast,
    if_neg (show ¬ cm.historical_metrics.length < N by omega),
    if_neg (show ¬ N = 0 by omega), hlast, hcast]

/-- C4: for `N ≥ 1`, the average view is `none` exactly on fewer than
`N` buffered samples, and otherwise averages `cpu_usage_pct` and
`mem_usage_pct` over the last `N` samples while taking `cores`,
`mem_used_mb`, `mem_total_mb` and `timestamp` from the most recent
buffered sample. -/
theorem c4_average_view (cm : ContainerMetrics) (N : ℕ) (hN : 1 ≤ N) :
    (cm.historical_metrics.length < N → cm.get_average_metrics N = none) ∧
    (N ≤ cm.historical_metrics.length →
      ∃ em latest,
        cm.get_average_metrics N = some em ∧
        (cm.historical_metrics.drop (cm.historical_metrics.length - N)).getLast? =
          some latest ∧
        em.cpu_usage_percent =
          ((cm.historical_metrics.drop (cm.historical_metrics.length - N)).map
            (fun m => m.cpu_usage_percent)).sum / (N : ℚ) ∧
        em.memory_usage_percent =
          ((cm.historical_metrics.drop (cm.historical_metrics.length - N)).map
            (fun m => m.memory_usage_percent)).sum / (N : ℚ) ∧
        em.cpu_cores = latest.cpu_cores ∧
        em.memory_used_mb = latest.memory_used_mb ∧
        em.memory_total_mb = latest.memory_total_mb ∧
        em.timestamp = latest.timestamp) :=
  ⟨fun h => get_average_metrics_none cm N h,
   fun h => get_average_metrics_spec cm N hN h⟩

/-- C4 witness: three buffered samples with `N = 3` yield an average. -/
theorem c4_witness : cmHot.get_average_metrics 3 ≠ none := by
  obtain ⟨em, latest, heq, -⟩ := (c4_average_view cmHot 3 (by decide)).2 (by decide)
  simp [heq]

/-! ### Preflight order and decision shape -/

/-- C3: the per-container evaluation applies the five preflight
short-circuits in source order, each yielding a `none` action with the
stated reason, and computes a threshold decision only when all five
checks pass. -/
theorem c3_preflight_order (cc : ContainerConfig) (cm : ContainerMetrics)
    (aops : List ℕ) (hist : ℕ → Option ScalingHistory) (now : ℚ)
    (cl : ClusterMetrics) :
    (evaluate_container_scaling cc none aops hist now cl =
      Except.ok { vmid := cc.vmid, node := "unknown",
                  action := ScalingAction.no_action,
                  reason := ScalingReason.insufficient_data,
                  current_cpu_cores := 0, current_memory_mb := 0 }) ∧
    (cm.status ≠ "running" →
      evaluate_container_scaling cc (some cm) aops hist now cl =
        Except.ok { vmid := cc.vmid, node := cm.node,
                    action := ScalingAction.no_action,
                    reason := ScalingReason.container_not_running,
                    current_cpu_cores := 0, current_memory_mb := 0 }) ∧
    (cm.status = "running" → cc.vmid ∈ aops →
      evaluate_container_scaling cc (some cm) aops hist now cl =
        Except.ok { vmid := cc.vmid, node := cm.node,
                    action := ScalingAction.no_action,
                    reason := ScalingReason.cooldown_period,
                    current_cpu_cores := currentCoresOf cm,
                    current_memory_mb := currentMemoryOf cm }) ∧
    (cm.status = "running" → cc.vmid ∉ aops →
      ((hist cc.vmid).getD { vmid := cc.vmid }).is_in_cooldown now
          cc.cooldown_seconds = true →
      evaluate_container_scaling cc (some cm) aops hist now cl =
        Except.ok { vmid := cc.vmid, node := cm.node,
                    action := ScalingAction.no_action,
                    reason := ScalingReason.cooldown_period,
                    current_cpu_cores := currentCoresOf cm,
                    current_memory_mb := currentMemoryOf cm }) ∧
    (cm.status = "running" → cc.vmid ∉ aops →
      ((hist cc.vmid).getD { vmid := cc.vmid }).is_in_cooldown now
          cc.cooldown_seconds = false →
      cm.historical_metrics.length < cc.evaluation_periods →
      evaluate_container_scaling cc (some cm) aops hist now cl =
        Except.ok { vmid := cc.vmid, node := cm.node,
                    action := ScalingAction.no_action,
                    reason := ScalingReason.insufficient_data,
                    current_cpu_cores := currentCoresOf cm,
                    current_memory_mb := currentMemoryOf cm }) ∧
    (cm.status = "running" → cc.vmid ∉ aops →
      ((hist cc.vmid).getD { vmid := cc.vmid }).is_in_cooldown now
          cc.cooldown_seconds = false →
      1 ≤ cc.evaluation_periods →
      cc.evaluation_periods ≤ cm.historical_metrics.length →
      ∃ em, cm.get_average_metrics cc.evaluation_periods = some em ∧
        evaluate_container_scaling cc (some cm) aops hist now cl =
          make_scaling_decision cc cm em cl) := by
  refine ⟨rfl, ?_, ?_, ?_, ?_, ?_⟩
  · intro hst
    simp only [evaluate_container_scaling]
    rw [if_pos hst]
  · intro hst hmem
    simp only [evaluate_container_scaling]
    rw [if_neg (by simp [hst]), if_pos hmem]
  · intro hst hmem hcd
    simp only [evaluate_container_scaling]
    rw [if_neg (by simp [hst]), if_neg hmem, if_pos hcd]
  · intro hst hmem hcd hfew
    have havg := get_average_metrics_none cm cc.evaluation_periods hfew
    simp only [evaluate_container_scaling]
    rw [if_neg (by simp [hst]), if_neg hmem, if_neg (by simp [hcd])]
    simp only [havg]
  · intro hst hmem hcd hN hlen
    obtain ⟨em, latest, heq, -⟩ :=
      get_average_metrics_spec cm cc.evaluation_periods hN hlen
    refine ⟨em, heq, ?_⟩
    simp only [evaluate_container_scaling]
    rw [if_neg (by simp [hst]), if_neg hmem, if_neg (by simp [hcd])]
    simp only [heq]

/-- C3 witness: a running container with an active operation registered
for its vmid short-circuits to a cooldown decision. -/
theorem c3_witness :
    evaluate_container_scaling ccDef (some cmHot) [101] histNone 0 clusterCalm =
      Except.ok { vmid := ccDef.vmid, node := cmHot.node,
                  action := ScalingAction.no_action,
                  reason := ScalingReason.cooldown_period,
                  current_cpu_cores := currentCoresOf cmHot,
                  current_memory_mb := currentMemoryOf cmHot } :=
  (c3_preflight_order ccDef cmHot [101] histNone 0 clusterCalm).2.2.1 rfl (by decide)

/-- Shape of every decision the threshold evaluator returns. -/
theorem make_scaling_decision_shape (cc : ContainerConfig) (cm : ContainerMetrics)
    (em : ResourceMetrics) (cl : ClusterMetrics) (d : ScalingDecision)
    (h : make_scaling_decision cc cm em cl = Except.ok d) : decision_shape d := by
  simp only [make_scaling_decision] at h
  split_ifs at h <;> (injection h with h; subst h; simp [decision_shape])

/-- C5: every decision the per-container evaluation produces satisfies
the shape invariant: a `none` action has no target, a cpu action sets
only `target_cpu_cores`, a memory action only `target_memory_mb`, and any
non-`none` action sets exactly one of the two. -/
theorem c5_decision_shape (cc : ContainerConfig) (ocm : Option ContainerMetrics)
    (aops : List ℕ) (hist : ℕ → Option ScalingHistory) (now : ℚ)
    (cl : ClusterMetrics) (d : ScalingDecision)
    (h : evaluate_container_scaling cc ocm aops hist now cl = Except.ok d) :
    decision_shape d := by
  rcases ocm with _ | cm
  · simp only [evaluate_container_scaling] at h
    injection h with h
    subst h
    simp [decision_shape]
  · simp only [evaluate_container_scaling] at h
    split_ifs at h with h1 h2 h3
    · injection h with h; subst h; simp [decision_shape]
    · injection h with h; subst h; simp [decision_shape]
    · injection h with h; subst h; simp [decision_shape]
    · rcases havg : cm.get_average_metrics cc.evaluation_periods with _ | em
      · simp only [havg] at h
        injection h with h
        subst h
        simp [decision_shape]
      · simp only [havg] at h
        exact make_scaling_decision_shape cc cm em cl d h

/-- C5 witness: the decision produced for an untracked container
satisfies the shape invariant. -/
theorem c5_witness : decision_shape dIns :=
  c5_decision_shape ccDef none [] histNone 0 clusterCalm dIns rfl

/-- C1 (code bug): on the concrete input whose averaged usage matches no
threshold (cpu strictly between the scale-down and scale-up thresholds,
memory likewise), the decision engine does not emit a `none`/`no_action`
decision: the fall-through branch evaluates the nonexistent enum member
`ScalingReason.NO_ACTION` and raises `AttributeError`. -/
theorem c1_no_match_branch_raises :
    ccDef.thresholds.cpu_scale_down < sMid.cpu_usage_percent ∧
    sMid.cpu_usage_percent < ccDef.thresholds.cpu_scale_up ∧
    ccDef.thresholds.memory_scale_down < sMid.memory_usage_percent ∧
    sMid.memory_usage_percent < ccDef.thresholds.memory_scale_up ∧
    make_scaling_decision ccDef cmMid sMid clusterCalm =
      Except.error (PyError.attributeError "NO_ACTION") ∧
    evaluate_container_scaling ccDef (some cmMid) [] histNone 0 clusterCalm =
      Except.error (PyError.attributeError "NO_ACTION") := by
  have havg : cmMid.get_average_metrics 3 = some sMid := by
    unfold ContainerMetrics.get_average_metrics pySliceLast
    norm_num [cmMid, sMid]
  refine ⟨by decide, by decide, by decide, by decide, rfl, ?_⟩
  simp only [evaluate_container_scaling]
  rw [if_neg (by decide), if_neg (by decide), if_neg (by decide)]
  have hper : ccDef.evaluation_periods = 3 := rfl
  rw [hper, havg]
  rfl
